import Mathlib

/-!
Verification of `examples/models/llama2/eval_llama_lib.py`.

Tensors are modelled as lists of integers living in a store (a heap of
tensors addressed by natural-number references), so that in-place tensor
writes and frame effects can be stated.  `torch.empty` returns memory with
unspecified contents; we model this with an explicit `mem : Nat → Int`
parameter giving the contents the allocator happens to hand out.
-/

/-- A tensor of integer token ids (1-dimensional). -/
abbrev Tensor := List Int

/-- A heap of tensors; a tensor reference is an index into this list. -/
abbrev Store := List Tensor

/-- Dereference a tensor reference (out-of-range reads give `[]`). -/
def Store.read (s : Store) (r : Nat) : Tensor := s.getD r []

/-- Allocate a fresh tensor, returning the new store and its reference. -/
def Store.alloc (s : Store) (t : Tensor) : Store × Nat := (s ++ [t], s.length)

/-- Overwrite the tensor at reference `r` in place. -/
def Store.write (s : Store) (r : Nat) (t : Tensor) : Store := s.set r t

/-- Python slice assignment `dst[:len src] = src`: the first `src.length`
entries of `dst` are replaced by `src`, the rest of `dst` is kept. -/
def sliceAssign (dst src : Tensor) : Tensor := src ++ dst.drop src.length

/-- The triple returned by the prefill setup function, together with the
final store (so that effects on pre-existing tensors are observable). -/
structure SetupResult where
  store : Store
  seq : Nat
  input_pos : Nat
  max_seq_length : Nat

/-- Embedding of `setup_cache_padded_seq_input_pos_max_seq_length_for_prefill`
(eval_llama_lib.py lines 27-65).  `model` is the list of tensor references
owned by the model argument; the function never touches it, mirroring the
source, where the cache-setup call is commented out.  `mem i` is the
unspecified content `torch.empty` leaves at index `i` of the fresh buffer.
In the source `block_size` defaults to 2048; here it is always passed. -/
def setup_cache_padded_seq_input_pos_max_seq_length_for_prefill
    (model : List Nat) (s : Store) (mem : Nat → Int) (promptRef : Nat)
    (max_new_tokens : Nat) (max_seq_length : Option Nat) (block_size : Nat) :
    SetupResult :=
  let prompt := s.read promptRef
  let T := prompt.length
  let T_new := T + max_new_tokens
  let msl : Nat :=
    match max_seq_length with
    | none => min T_new block_size
    | some m => m
  let a1 := s.alloc ((List.range T_new).map mem)
  let s1 := a1.1
  let emptyRef := a1.2
  let s2 := s1.write emptyRef (sliceAssign (s1.read emptyRef) prompt)
  let a2 := s2.alloc ((List.range T).map Int.ofNat)
  ⟨a2.1, emptyRef, a2.2, msl⟩

theorem getD_append_length (s : List α) (t : α) (d : α) :
    (s ++ [t]).getD s.length d = t := by
  induction s with
  | nil => rfl
  | cons a as ih => simpa [List.getD] using ih

theorem getD_append_lt (s l : List α) (i : Nat) (d : α) (h : i < s.length) :
    (s ++ l).getD i d = s.getD i d := by
  induction s generalizing i with
  | nil => simp at h
  | cons a as ih =>
    cases i with
    | zero => rfl
    | succ j =>
      have hj : j < as.length := by simpa using h
      simpa [List.getD] using ih j hj

theorem getD_set_self (s : List α) (r : Nat) (t d : α) (h : r < s.length) :
    (s.set r t).getD r d = t := by
  induction s generalizing r with
  | nil => simp at h
  | cons a as ih =>
    cases r with
    | zero => rfl
    | succ j =>
      have hj : j < as.length := by simpa using h
      simpa [List.getD] using ih j hj

theorem getD_set_ne (s : List α) (r i : Nat) (t d : α) (h : i ≠ r) :
    (s.set r t).getD i d = s.getD i d := by
  induction s generalizing r i with
  | nil => simp [List.set]
  | cons a as ih =>
    cases r with
    | zero =>
      cases i with
      | zero => exact absurd rfl h
      | succ j => rfl
    | succ rr =>
      cases i with
      | zero => rfl
      | succ j =>
        have hj : j ≠ rr := fun hc => h (by rw [hc])
        simpa [List.getD] using ih rr j hj

/-- What the returned `seq` reference holds in the final store: the buffer
`torch.empty` handed out, its first `T` entries overwritten by the prompt. -/
theorem setup_read_seq (model : List Nat) (s : Store) (mem : Nat → Int)
    (promptRef : Nat) (N : Nat) (msl : Option Nat) (bs : Nat) :
    ((setup_cache_padded_seq_input_pos_max_seq_length_for_prefill
        model s mem promptRef N msl bs).store).read
      (setup_cache_padded_seq_input_pos_max_seq_length_for_prefill
        model s mem promptRef N msl bs).seq
      = sliceAssign ((List.range ((s.read promptRef).length + N)).map mem)
          (s.read promptRef) := by
  unfold setup_cache_padded_seq_input_pos_max_seq_length_for_prefill
  simp only [Store.alloc, Store.write, Store.read]
  rw [getD_append_lt]
  · rw [getD_set_self]
    · rw [getD_append_length]
    · simp
  · simp

/-- What the returned `input_pos` reference holds in the final store. -/
theorem setup_read_pos (model : List Nat) (s : Store) (mem : Nat → Int)
    (promptRef : Nat) (N : Nat) (msl : Option Nat) (bs : Nat) :
    ((setup_cache_padded_seq_input_pos_max_seq_length_for_prefill
        model s mem promptRef N msl bs).store).read
      (setup_cache_padded_seq_input_pos_max_seq_length_for_prefill
        model s mem promptRef N msl bs).input_pos
      = (List.range (s.read promptRef).length).map Int.ofNat := by
  unfold setup_cache_padded_seq_input_pos_max_seq_length_for_prefill
  simp only [Store.alloc, Store.write, Store.read]
  exact getD_append_length _ _ _

/-- The returned max sequence length when no explicit maximum is given. -/
theorem setup_msl_none (model : List Nat) (s : Store) (mem : Nat → Int)
    (promptRef : Nat) (N : Nat) (bs : Nat) :
    (setup_cache_padded_seq_input_pos_max_seq_length_for_prefill
        model s mem promptRef N none bs).max_seq_length
      = min ((s.read promptRef).length + N) bs := rfl

/-- The returned max sequence length when an explicit maximum is given. -/
theorem setup_msl_some (model : List Nat) (s : Store) (mem : Nat → Int)
    (promptRef : Nat) (N : Nat) (m : Nat) (bs : Nat) :
    (setup_cache_padded_seq_input_pos_max_seq_length_for_prefill
        model s mem promptRef N (some m) bs).max_seq_length = m := rfl

/-- Frame property: every tensor that existed before the call reads the same
afterwards; the function only allocates fresh tensors. -/
theorem setup_frame_read (model : List Nat) (s : Store) (mem : Nat → Int)
    (promptRef : Nat) (N : Nat) (msl : Option Nat) (bs : Nat)
    (r : Nat) (h : r < s.length) :
    ((setup_cache_padded_seq_input_pos_max_seq_length_for_prefill
        model s mem promptRef N msl bs).store).read r = s.read r := by
  unfold setup_cache_padded_seq_input_pos_max_seq_length_for_prefill
  simp only [Store.alloc, Store.write, Store.read]
  rw [getD_append_lt, getD_set_ne, getD_append_lt _ _ _ _ h]
  · exact Nat.ne_of_lt h
  · simpa using Nat.lt_succ_of_lt h

theorem sliceAssign_length (dst src : Tensor) (h : src.length ≤ dst.length) :
    (sliceAssign dst src).length = dst.length := by
  simp [sliceAssign]
  omega

theorem sliceAssign_take (dst src : Tensor) :
    (sliceAssign dst src).take src.length = src := by
  simp [sliceAssign]

/-- Claim C2: for every prompt of length `T ≥ 1`, every `max_new_tokens = N`,
and any explicit `max_seq_length` (given or not), the returned buffer has
length exactly `T + N` and its first `T` entries equal the prompt; an
explicit `max_seq_length` smaller than `T + N` does not shrink the buffer. -/
theorem setup_seq_length_and_prompt_copy (model : List Nat) (s : Store)
    (mem : Nat → Int) (promptRef : Nat) (N : Nat) (msl : Option Nat) (bs : Nat)
    (h : 1 ≤ (s.read promptRef).length) :
    (((setup_cache_padded_seq_input_pos_max_seq_length_for_prefill
        model s mem promptRef N msl bs).store).read
      (setup_cache_padded_seq_input_pos_max_seq_length_for_prefill
        model s mem promptRef N msl bs).seq).length
      = (s.read promptRef).length + N ∧
    (((setup_cache_padded_seq_input_pos_max_seq_length_for_prefill
        model s mem promptRef N msl bs).store).read
      (setup_cache_padded_seq_input_pos_max_seq_length_for_prefill
        model s mem promptRef N msl bs).seq).take (s.read promptRef).length
      = s.read promptRef := by
  rw [setup_read_seq]
  constructor
  · rw [sliceAssign_length] <;> simp
  · exact sliceAssign_take _ _

/-- Witness for claim C2 at a concrete input: prompt `[5,6,7]`, two new
tokens, memory contents all `9`. -/
theorem setup_seq_length_and_prompt_copy_inst :
    (((setup_cache_padded_seq_input_pos_max_seq_length_for_prefill
        [] [[(5:Int),6,7]] (fun _ => 9) 0 2 none 2048).store).read
      (setup_cache_padded_seq_input_pos_max_seq_length_for_prefill
        [] [[(5:Int),6,7]] (fun _ => 9) 0 2 none 2048).seq).length = 5 ∧
    (((setup_cache_padded_seq_input_pos_max_seq_length_for_prefill
        [] [[(5:Int),6,7]] (fun _ => 9) 0 2 none 2048).store).read
      (setup_cache_padded_seq_input_pos_max_seq_length_for_prefill
        [] [[(5:Int),6,7]] (fun _ => 9) 0 2 none 2048).seq).take 3
      = [(5:Int),6,7] :=
  setup_seq_length_and_prompt_copy [] [[(5:Int),6,7]] (fun _ => 9) 0 2 none 2048
    (by decide)

theorem getD_range_map_cast (n i : Nat) (h : i < n) :
    ((List.range n).map Int.ofNat).getD i 0 = Int.ofNat i := by
  induction n with
  | zero => omega
  | succ k ih =>
    rcases Nat.lt_or_ge i k with hk | hk
    · rw [List.range_succ, List.map_append]
      rw [getD_append_lt _ _ _ _ (by simpa using hk)]
      exact ih hk
    · have hik : i = k := by omega
      subst hik
      rw [List.range_succ, List.map_append]
      have hlen : ((List.range i).map Int.ofNat).length = i := by simp
      simpa [hlen] using
        getD_append_length ((List.range i).map Int.ofNat) (Int.ofNat i) 0

/-- Claim C3: for every prompt of length `T ≥ 1`, the returned position index
sequence has length `T`, starts at `0`, ends at `T - 1`, and increases in
steps of `1` (hence is strictly increasing). -/
theorem setup_input_pos_arange (model : List Nat) (s : Store)
    (mem : Nat → Int) (promptRef : Nat) (N : Nat) (msl : Option Nat) (bs : Nat)
    (h : 1 ≤ (s.read promptRef).length) :
    (((setup_cache_padded_seq_input_pos_max_seq_length_for_prefill
        model s mem promptRef N msl bs).store).read
      (setup_cache_padded_seq_input_pos_max_seq_length_for_prefill
        model s mem promptRef N msl bs).input_pos).length
      = (s.read promptRef).length ∧
    (((setup_cache_padded_seq_input_pos_max_seq_length_for_prefill
        model s mem promptRef N msl bs).store).read
      (setup_cache_padded_seq_input_pos_max_seq_length_for_prefill
        model s mem promptRef N msl bs).input_pos).head? = some 0 ∧
    (((setup_cache_padded_seq_input_pos_max_seq_length_for_prefill
        model s mem promptRef N msl bs).store).read
      (setup_cache_padded_seq_input_pos_max_seq_length_for_prefill
        model s mem promptRef N msl bs).input_pos).getLast?
      = some (Int.ofNat ((s.read promptRef).length - 1)) ∧
    ∀ i : Nat, i + 1 < (s.read promptRef).length →
      (((setup_cache_padded_seq_input_pos_max_seq_length_for_prefill
          model s mem promptRef N msl bs).store).read
        (setup_cache_padded_seq_input_pos_max_seq_length_for_prefill
          model s mem promptRef N msl bs).input_pos).getD (i + 1) 0
        = (((setup_cache_padded_seq_input_pos_max_seq_length_for_prefill
            model s mem promptRef N msl bs).store).read
          (setup_cache_padded_seq_input_pos_max_seq_length_for_prefill
            model s mem promptRef N msl bs).input_pos).getD i 0 + 1 := by
  rw [setup_read_pos]
  obtain ⟨k, hk⟩ : ∃ k, (s.read promptRef).length = k + 1 :=
    ⟨(s.read promptRef).length - 1, by omega⟩
  rw [hk]
  refine ⟨by simp, ?_, ?_, ?_⟩
  · cases k with
    | zero => rfl
    | succ j => rw [List.range_succ_eq_map]; rfl
  · rw [List.range_succ, List.map_append, List.getLast?_append]
    · simp
  · intro i hi
    rw [getD_range_map_cast _ _ (by omega), getD_range_map_cast _ _ (by omega)]
    simp only [Int.ofNat_eq_natCast]
    omega

/-- Witness for claim C3 at a concrete input: prompt `[5,6,7]` gives
positions `[0,1,2]`. -/
theorem setup_input_pos_arange_inst :
    (((setup_cache_padded_seq_input_pos_max_seq_length_for_prefill
        [] [[(5:Int),6,7]] (fun _ => 9) 0 2 none 2048).store).read
      (setup_cache_padded_seq_input_pos_max_seq_length_for_prefill
        [] [[(5:Int),6,7]] (fun _ => 9) 0 2 none 2048).input_pos).length = 3 ∧
    (((setup_cache_padded_seq_input_pos_max_seq_length_for_prefill
        [] [[(5:Int),6,7]] (fun _ => 9) 0 2 none 2048).store).read
      (setup_cache_padded_seq_input_pos_max_seq_length_for_prefill
        [] [[(5:Int),6,7]] (fun _ => 9) 0 2 none 2048).input_pos).head?
      = some 0 ∧
    (((setup_cache_padded_seq_input_pos_max_seq_length_for_prefill
        [] [[(5:Int),6,7]] (fun _ => 9) 0 2 none 2048).store).read
      (setup_cache_padded_seq_input_pos_max_seq_length_for_prefill
        [] [[(5:Int),6,7]] (fun _ => 9) 0 2 none 2048).input_pos).getLast?
      = some 2 := by
  have h := setup_input_pos_arange [] [[(5:Int),6,7]] (fun _ => 9) 0 2 none 2048
    (by decide)
  exact ⟨h.1, h.2.1, h.2.2.1⟩

/-- Claim C4: the effective max length equals `min (T+N) block_size` when the
caller passes no explicit `max_seq_length`, and the explicit value otherwise. -/
theorem setup_max_seq_length_formula (model : List Nat) (s : Store)
    (mem : Nat → Int) (promptRef : Nat) (N : Nat) (bs : Nat) :
    (setup_cache_padded_seq_input_pos_max_seq_length_for_prefill
        model s mem promptRef N none bs).max_seq_length
      = min ((s.read promptRef).length + N) bs ∧
    ∀ m : Nat, (setup_cache_padded_seq_input_pos_max_seq_length_for_prefill
        model s mem promptRef N (some m) bs).max_seq_length = m :=
  ⟨rfl, fun _ => rfl⟩

/-- Claim C7: the setup function has no side effects beyond its returned
values: the prompt tensor and every tensor reachable from the model argument
read the same after the call, and no model-internal cache state is set up
(the cache-setup call in the source is commented out). -/
theorem setup_no_side_effects (model : List Nat) (s : Store) (mem : Nat → Int)
    (promptRef : Nat) (N : Nat) (msl : Option Nat) (bs : Nat) :
    (promptRef < s.length →
      ((setup_cache_padded_seq_input_pos_max_seq_length_for_prefill
          model s mem promptRef N msl bs).store).read promptRef
        = s.read promptRef) ∧
    ∀ r ∈ model, r < s.length →
      ((setup_cache_padded_seq_input_pos_max_seq_length_for_prefill
          model s mem promptRef N msl bs).store).read r = s.read r := by
  exact ⟨fun h => setup_frame_read model s mem promptRef N msl bs promptRef h,
    fun r _ h => setup_frame_read model s mem promptRef N msl bs r h⟩

/-- Witness for claim C7 at a concrete input: a store holding the prompt
`[5]` and a model tensor `[3]`; both read the same after the call. -/
theorem setup_no_side_effects_inst :
    (((setup_cache_padded_seq_input_pos_max_seq_length_for_prefill
        [1] [[(5:Int)], [(3:Int)]] (fun _ => 9) 0 1 none 2048).store).read 0
      = Store.read [[(5:Int)], [(3:Int)]] 0) ∧
    (((setup_cache_padded_seq_input_pos_max_seq_length_for_prefill
        [1] [[(5:Int)], [(3:Int)]] (fun _ => 9) 0 1 none 2048).store).read 1
      = Store.read [[(5:Int)], [(3:Int)]] 1) := by
  have h := setup_no_side_effects [1] [[(5:Int)], [(3:Int)]] (fun _ => 9)
    0 1 none 2048
  exact ⟨h.1 (by decide), h.2 1 (by decide) (by decide)⟩

/-- Claim C9: for an empty prompt and any `N`, the setup function returns a
buffer of length `N`, an empty position index sequence, and (when no explicit
maximum is given) effective max length `min N block_size`. -/
theorem setup_empty_prompt (model : List Nat) (s : Store) (mem : Nat → Int)
    (promptRef : Nat) (N : Nat) (msl : Option Nat) (bs : Nat)
    (h : s.read promptRef = []) :
    (((setup_cache_padded_seq_input_pos_max_seq_length_for_prefill
        model s mem promptRef N msl bs).store).read
      (setup_cache_padded_seq_input_pos_max_seq_length_for_prefill
        model s mem promptRef N msl bs).seq).length = N ∧
    ((setup_cache_padded_seq_input_pos_max_seq_length_for_prefill
        model s mem promptRef N msl bs).store).read
      (setup_cache_padded_seq_input_pos_max_seq_length_for_prefill
        model s mem promptRef N msl bs).input_pos = [] ∧
    (setup_cache_padded_seq_input_pos_max_seq_length_for_prefill
        model s mem promptRef N none bs).max_seq_length = min N bs := by
  refine ⟨?_, ?_, ?_⟩
  · rw [setup_read_seq, sliceAssign_length] <;> simp [h]
  · rw [setup_read_pos, h]
    rfl
  · rw [setup_msl_none, h]
    simp

/-- Witness for claim C9 at a concrete input: store `[[]]`, `N = 3`. -/
theorem setup_empty_prompt_inst :
    (((setup_cache_padded_seq_input_pos_max_seq_length_for_prefill
        [] [([] : Tensor)] (fun _ => 9) 0 3 none 2048).store).read
      (setup_cache_padded_seq_input_pos_max_seq_length_for_prefill
        [] [([] : Tensor)] (fun _ => 9) 0 3 none 2048).seq).length = 3 ∧
    ((setup_cache_padded_seq_input_pos_max_seq_length_for_prefill
        [] [([] : Tensor)] (fun _ => 9) 0 3 none 2048).store).read
      (setup_cache_padded_seq_input_pos_max_seq_length_for_prefill
        [] [([] : Tensor)] (fun _ => 9) 0 3 none 2048).input_pos = [] ∧
    (setup_cache_padded_seq_input_pos_max_seq_length_for_prefill
        [] [([] : Tensor)] (fun _ => 9) 0 3 none 2048).max_seq_length = 3 :=
  setup_empty_prompt [] [([] : Tensor)] (fun _ => 9) 0 3 none 2048 rfl

/-- Claim C1 fails on the code: the buffer is allocated with `torch.empty`,
whose contents beyond the copied prompt are unspecified, not zero.  With
prompt `[5]`, one new token, and allocator memory containing `7`, the
returned buffer is `[5, 7]`: its last entry is `7`, not `0`, contradicting
the claim (and the function's own docstring, which promises zero padding). -/
theorem setup_seq_not_zero_padded_at_input :
    ((setup_cache_padded_seq_input_pos_max_seq_length_for_prefill
        [] [[(5:Int)]] (fun _ => 7) 0 1 none 2048).store).read
      (setup_cache_padded_seq_input_pos_max_seq_length_for_prefill
        [] [[(5:Int)]] (fun _ => 7) 0 1 none 2048).seq = [5, 7] := by
  decide

/-- Message of the exception raised by the unimplemented generation path. -/
def unimplementedMsg : String := "unimplemented"

/-- Name of the meta-task expanded in place by `eval`. -/
def hendrycksTestTask : String := "hendrycks_test"

/-- Default task used by `eval` when no task list is passed. -/
def wikitextTask : String := "wikitext"

/-- The tokenizer collaborator (a SentencePiece processor in the source):
beginning/end-of-sequence ids and encode/decode. -/
structure Tokenizer where
  bos_id : Int
  eos_id : Int
  encode : String → List Int
  decode : List Int → String

/-- Compute locality chosen at wrapper construction. -/
inductive Device where
  | cuda : Device
  | cpu : Device

/-- Smallest value representable by `torch.int` (32-bit signed). -/
def int32Lo : Int := -(2 ^ 31)

/-- Largest value representable by `torch.int` (32-bit signed). -/
def int32Hi : Int := 2 ^ 31 - 1

/-- `torch.tensor(x, dtype=torch.int)` element conversion: a Python int out
of 32-bit range makes the construction raise, modelled as `none`. -/
def toInt32Checked (x : Int) : Option Int :=
  if int32Lo ≤ x ∧ x ≤ int32Hi then some x else none

/-- `torch.tensor(xs, dtype=torch.int, ...).tolist()` on a flat list of
Python ints: the identity when every element fits in 32 bits. -/
def tensorFromListInt32 (xs : List Int) : Option (List Int) :=
  xs.mapM toInt32Checked

/-- State of a `GPTFastEvalWrapper` (eval_llama_lib.py lines 68-141); `M` is
the type of the wrapped model object. -/
structure GPTFastEvalWrapper (M : Type) where
  _model : M
  _tokenizer : Tokenizer
  _device : Device
  _max_seq_length : Nat

/-- Embedding of `GPTFastEvalWrapper.__init__` (lines 73-85): stores model
and tokenizer, picks cuda when available, and defaults the max sequence
length to 2048 when none is supplied. -/
def GPTFastEvalWrapper.init {M : Type} (model : M) (tokenizer : Tokenizer)
    (max_seq_length : Option Nat) (cuda_available : Bool) :
    GPTFastEvalWrapper M :=
  ⟨model, tokenizer,
   if cuda_available then Device.cuda else Device.cpu,
   match max_seq_length with
   | none => 2048
   | some m => m⟩

/-- Embedding of the `eot_token_id` property (lines 87-89). -/
def GPTFastEvalWrapper.eot_token_id {M : Type} (w : GPTFastEvalWrapper M) :
    Int :=
  w._tokenizer.eos_id

/-- Embedding of the `max_length` property (lines 91-93). -/
def GPTFastEvalWrapper.max_length {M : Type} (w : GPTFastEvalWrapper M) :
    Nat :=
  w._max_seq_length

/-- Embedding of the `max_gen_toks` property (lines 95-97). -/
def GPTFastEvalWrapper.max_gen_toks {M : Type} (_w : GPTFastEvalWrapper M) :
    Nat :=
  50

/-- Embedding of the `batch_size` property (lines 99-101). -/
def GPTFastEvalWrapper.batch_size {M : Type} (_w : GPTFastEvalWrapper M) :
    Nat :=
  1

/-- Embedding of the `device` property (lines 103-105). -/
def GPTFastEvalWrapper.device {M : Type} (w : GPTFastEvalWrapper M) :
    Device :=
  w._device

/-- Embedding of `tok_encode` (lines 107-114): prepend the bos id to the
tokenizer's encoding, build an int32 tensor, convert back to a list. -/
def GPTFastEvalWrapper.tok_encode {M : Type} (w : GPTFastEvalWrapper M)
    (s : String) : Option (List Int) :=
  tensorFromListInt32 (w._tokenizer.bos_id :: w._tokenizer.encode s)

/-- Embedding of `tok_decode` (lines 116-118). -/
def GPTFastEvalWrapper.tok_decode {M : Type} (w : GPTFastEvalWrapper M)
    (tokens : List Int) : String :=
  w._tokenizer.decode tokens

/-- Embedding of `_model_generate` (lines 140-141): raises unconditionally. -/
def GPTFastEvalWrapper._model_generate {M : Type} (_w : GPTFastEvalWrapper M)
    (_context : List Int) (_max_length : Nat) (_eos_token_id : Int) :
    Except String (List Int) :=
  Except.error unimplementedMsg

/-- Embedding of the task-list normalization in `eval` (lines 162-167):
`tasks.remove` drops the first occurrence of the meta-task, then the
expanded hendrycks task names are appended; both operations mutate the
caller's list in Python, so the caller's list afterwards equals the result. -/
def eval_tasks_update (hendrycks_all_tasks : List String)
    (tasks : List String) : List String :=
  if hendrycksTestTask ∈ tasks then
    tasks.erase hendrycksTestTask ++ hendrycks_all_tasks
  else tasks

/-- Embedding of the default at the top of `eval` (lines 162-163). -/
def eval_resolved_tasks (tasks : Option (List String)) : List String :=
  match tasks with
  | none => [wikitextTask]
  | some t => t

/-- Sample strings used by concrete witnesses. -/
def sampleText : String := "hi"

def taskAnatomy : String := "anatomy"

def taskAstronomy : String := "astronomy"

/-- A concrete tokenizer used by witnesses: bos id 1, eos id 2, every string
encoded as `[3, 4]`. -/
def tok0 : Tokenizer :=
  ⟨1, 2, fun _ => [3, 4], fun _ => sampleText⟩

theorem tensorFromListInt32_all_inrange (xs : List Int)
    (h : ∀ x ∈ xs, int32Lo ≤ x ∧ x ≤ int32Hi) :
    tensorFromListInt32 xs = some xs := by
  induction xs with
  | nil => rfl
  | cons a as ih =>
    have ha : toInt32Checked a = some a := by
      unfold toInt32Checked
      rw [if_pos (h a (List.mem_cons_self a as))]
    have has := ih (fun x hx => h x (List.mem_cons_of_mem a hx))
    unfold tensorFromListInt32 at has ⊢
    rw [List.mapM_cons, ha, has]
    rfl

/-- Claim C5: `_model_generate` raises unconditionally, for every choice of
arguments; it never returns a value. -/
theorem model_generate_always_fails (M : Type) (w : GPTFastEvalWrapper M)
    (context : List Int) (max_length : Nat) (eos_token_id : Int) :
    w._model_generate context max_length eos_token_id
      = Except.error unimplementedMsg :=
  rfl

/-- Claim C6: `tok_encode` returns a flat list of token ids whose first
element is the tokenizer's bos id followed by the tokenizer's encoding of
the input, provided every id fits in the 32-bit element type of the
intermediate tensor. -/
theorem tok_encode_prepends_bos (M : Type) (w : GPTFastEvalWrapper M)
    (s : String)
    (h : ∀ x ∈ w._tokenizer.bos_id :: w._tokenizer.encode s,
      int32Lo ≤ x ∧ x ≤ int32Hi) :
    w.tok_encode s = some (w._tokenizer.bos_id :: w._tokenizer.encode s) :=
  tensorFromListInt32_all_inrange _ h

/-- Witness for claim C6: the concrete tokenizer `tok0` encodes `"hi"` as
`[1, 3, 4]` with the bos id `1` in front. -/
theorem tok_encode_prepends_bos_inst :
    (GPTFastEvalWrapper.init (0 : Nat) tok0 none false).tok_encode sampleText
      = some [1, 3, 4] :=
  tok_encode_prepends_bos Nat (GPTFastEvalWrapper.init (0 : Nat) tok0 none false)
    sampleText (by decide)

/-- Claim C8: `max_gen_toks` is the fixed constant 50, `batch_size` is the
fixed constant 1, and `max_length` is 2048 when no `max_seq_length` was
supplied at construction and the supplied value otherwise. -/
theorem wrapper_fixed_constants (M : Type) (model : M) (tok : Tokenizer)
    (cuda : Bool) :
    (∀ msl : Option Nat,
      (GPTFastEvalWrapper.init model tok msl cuda).max_gen_toks = 50 ∧
      (GPTFastEvalWrapper.init model tok msl cuda).batch_size = 1) ∧
    (GPTFastEvalWrapper.init model tok none cuda).max_length = 2048 ∧
    ∀ m : Nat, (GPTFastEvalWrapper.init model tok (some m) cuda).max_length = m :=
  ⟨fun _ => ⟨rfl, rfl⟩, rfl, fun _ => rfl⟩

/-- Claim C10: when the tasks list contains `"hendrycks_test"`, the caller's
list afterwards has that entry removed (first occurrence, as Python's
`list.remove` does) and the expanded hendrycks task names appended; a list
not containing it is left unchanged. -/
theorem eval_mutates_tasks_list (hend tasks : List String) :
    (hendrycksTestTask ∈ tasks →
      eval_tasks_update hend tasks = tasks.erase hendrycksTestTask ++ hend) ∧
    (hendrycksTestTask ∉ tasks → eval_tasks_update hend tasks = tasks) := by
  constructor <;> intro h <;> simp [eval_tasks_update, h]

/-- Witness for claim C10 at concrete lists: `["wikitext", "hendrycks_test"]`
becomes `["wikitext", "anatomy", "astronomy"]`, while `["wikitext"]` is
unchanged. -/
theorem eval_mutates_tasks_list_inst :
    eval_tasks_update [taskAnatomy, taskAstronomy]
        [wikitextTask, hendrycksTestTask]
      = [wikitextTask, taskAnatomy, taskAstronomy] ∧
    eval_tasks_update [taskAnatomy, taskAstronomy] [wikitextTask]
      = [wikitextTask] := by
  have h1 := (eval_mutates_tasks_list [taskAnatomy, taskAstronomy]
    [wikitextTask, hendrycksTestTask]).1
    (List.mem_cons_of_mem _ (List.mem_cons_self _ _))
  have h2 := (eval_mutates_tasks_list [taskAnatomy, taskAstronomy]
    [wikitextTask]).2 (by decide)
  rw [h1] at *
  exact ⟨by rfl, h2⟩
